import Mathlib

/-!
Verification of the `AsyncCroutonClient` REST client
(`crouton_client/async.py`): URL construction, response handling,
id generation on `post`, and configuration immutability.

The Python code is embedded shallowly: strings are Lean `String`s,
Python dicts with string keys are association lists, each HTTP method
is a pure function of the client configuration, the call arguments, a
JSON parser (standing for the `res.json()` parse of aiohttp) and a backend
function from the request to an `HttpResponse` (standing for the
network).  A method returns its result together with the client value
and (for `post`) the dict of the caller, making the absence or presence of
mutation explicit.
-/

namespace Crouton

/-- JSON values, the type of parsed request and response bodies
(`Dict[str, Any]` entries in the source). -/
inductive Json where
  | null
  | bool (b : Bool)
  | num (n : Int)
  | str (s : String)
  | arr (elems : List Json)
  | obj (fields : List (String × Json))

/-- Python `s.strip(c)` on a list of characters: drop every copy of `c`
from both ends. -/
def pyStripList (c : Char) (l : List Char) : List Char :=
  ((l.dropWhile (fun x => x == c)).reverse.dropWhile (fun x => x == c)).reverse

/-- Python `s.strip(c)`: remove all leading and trailing occurrences of
the character `c` (used by `_build_url` as `resource.strip('/')` and
`ACCESS_STRING.strip('?')`). -/
def pyStrip (s : String) (c : Char) : String :=
  String.mk (pyStripList c s.data)

/-- Python `s.rstrip(c)`: remove all trailing occurrences of the
character `c` (used by `__init__` as `API_ROOT.rstrip('/')`). -/
def pyRstrip (s : String) (c : Char) : String :=
  String.mk ((s.data.reverse.dropWhile (fun x => x == c)).reverse)

/-- Truthiness of a Python `Optional[str]`: `None` and `""` are falsy,
every other string is truthy. -/
def optTruthy : Option String → Bool
  | none => false
  | some s => !(s == "")

/-- The characters `urllib.parse.quote` never encodes
(ASCII letters, digits, `_`, `.`, `-`, `~`). -/
def alwaysSafeChars : List Char :=
  "ABCDEFGHIJKLMNOPQRSTUVWXYZabcdefghijklmnopqrstuvwxyz0123456789_.-~".data

/-- Uppercase hexadecimal digit, for percent-encoding. -/
def hexUpperChar (n : Nat) : Char :=
  "0123456789ABCDEF".data.getD n '0'

/-- The UTF-8 encoding of a character, as its list of byte values. -/
def utf8Bytes (c : Char) : List Nat :=
  let n := c.toNat
  if n < 128 then [n]
  else if n < 2048 then [192 + n / 64, 128 + n % 64]
  else if n < 65536 then [224 + n / 4096, 128 + n / 64 % 64, 128 + n % 64]
  else [240 + n / 262144, 128 + n / 4096 % 64, 128 + n / 64 % 64, 128 + n % 64]

/-- Percent-encoding `%XX` of one byte. -/
def percentEncodeByte (b : Nat) : List Char :=
  ['%', hexUpperChar (b / 16 % 16), hexUpperChar (b % 16)]

/-- One character under Python `urllib.parse.quote_plus`: safe
characters pass through, a space becomes `+`, anything else is
percent-encoded per UTF-8 byte. -/
def quotePlusChar (c : Char) : List Char :=
  if alwaysSafeChars.contains c then [c]
  else if c == ' ' then ['+']
  else (utf8Bytes c).flatMap percentEncodeByte

/-- Python `urllib.parse.quote_plus` on a whole string. -/
def quotePlus (s : String) : String :=
  String.mk (s.data.flatMap quotePlusChar)

/-- Python `urllib.parse.urlencode` on a dict with string keys and
values, in insertion order (the default `quote_via=quote_plus`). -/
def urlencode (ps : List (String × String)) : String :=
  String.intercalate "&" (ps.map (fun p => quotePlus p.1 ++ "=" ++ quotePlus p.2))

/-- Python `c in url` for a single character `c`: membership of the
character in the string. -/
def strContainsChar (s : String) (c : Char) : Bool :=
  s.data.contains c

/-- The client configuration stored on `self` by
`AsyncCroutonClient.__init__`. -/
structure AsyncCroutonClient where
  API_ROOT : String
  ACCESS_STRING : Option String

/-- Embeds `AsyncCroutonClient.__init__`: store `API_ROOT.rstrip('/')` and the
access string as given. -/
def initClient (apiRoot : String) (accessString : Option String) : AsyncCroutonClient :=
  { API_ROOT := pyRstrip apiRoot '/', ACCESS_STRING := accessString }

/-- Embeds `AsyncCroutonClient._build_url`: base path from `API_ROOT` and the
slash-stripped resource, then the item id if truthy, then the
urlencoded query parameters if the dict is truthy, then the token with
`&`/`?` chosen by whether `'?'` already occurs in the URL. -/
def buildUrl (c : AsyncCroutonClient) (resource : String) (itemId : Option String)
    (queryParams : Option (List (String × String))) : String :=
  let url := c.API_ROOT ++ "/" ++ pyStrip resource '/'
  let url := if optTruthy itemId then url ++ "/" ++ itemId.getD "" else url
  let url := if (queryParams.getD []).isEmpty then url
             else url ++ "?" ++ urlencode (queryParams.getD [])
  if optTruthy c.ACCESS_STRING then
    let separator := if strContainsChar url '?' then "&" else "?"
    url ++ separator ++ "token=" ++ pyStrip (c.ACCESS_STRING.getD "") '?'
  else url

/-- An HTTP response as the methods observe it: a status code and the
raw body text (`res.status`, `await res.text()`). -/
structure HttpResponse where
  status : Nat
  body : String

/-- The errors a method can surface: a non-200 status (carrying the
method name, the status and the raw body, as interpolated into the
`ValueError` message) or a JSON-decoding failure of a 200 body. -/
inductive ClientError where
  | requestFailed (method : String) (status : Nat) (body : String)
  | jsonDecode (body : String)

/-- The message of the raised error; for `requestFailed` it is the
f-string of the source: the method name, the words `request failed
with status`, the status code, a colon, and the raw body text. -/
def errMessage : ClientError → String
  | .requestFailed m s b => m ++ " request failed with status " ++ toString s ++ ": " ++ b
  | .jsonDecode b => b

/-- The shared response handling of all four methods: on status 200
return `await res.json()` (parse failure propagates), otherwise raise
`ValueError` with method, status and body text. -/
def handleResponse (method : String) (parse : String → Option Json)
    (res : HttpResponse) : Except ClientError Json :=
  if res.status = 200 then
    match parse res.body with
    | some j => Except.ok j
    | none => Except.error (ClientError.jsonDecode res.body)
  else Except.error (ClientError.requestFailed method res.status res.body)

/-- The query-parameter dict built by `get`: the single-entry dict
mapping `filter_key` to `filter_value` when both are truthy, and
`None` otherwise. -/
def getQueryParams (filterKey filterValue : Option String) : Option (List (String × String)) :=
  if optTruthy filterKey && optTruthy filterValue then
    some [(filterKey.getD "", filterValue.getD "")]
  else none

/-- Embeds `AsyncCroutonClient.get`: build the URL with the optional item id
and the at-most-one-entry filter dict, issue GET, handle the response.
Returns the result together with the client after the call. -/
def AsyncCroutonClient.get (c : AsyncCroutonClient) (resource : String)
    (itemId filterKey filterValue : Option String) (parse : String → Option Json)
    (backend : String → HttpResponse) :
    Except ClientError Json × AsyncCroutonClient :=
  let url := buildUrl c resource itemId (getQueryParams filterKey filterValue)
  (handleResponse "GET" parse (backend url), c)

/-- Python membership test of a key in the dict (the negation of the
`not in` test of the source): whether the dict has the key. -/
def hasKey (k : String) (d : List (String × Json)) : Bool :=
  d.any (fun p => p.1 == k)

/-- Dict lookup `d[k]` as an option (first entry with the key). -/
def lookupKey (k : String) (d : List (String × Json)) : Option Json :=
  (d.find? (fun p => p.1 == k)).map Prod.snd

/-- Lowercase hexadecimal digits. -/
def hexLowerChars : List Char := "0123456789abcdef".data

/-- Lowercase hexadecimal digit of a value below 16. -/
def hexDigitChar (n : Nat) : Char := hexLowerChars.getD n '0'

/-- Big-endian fixed-width hexadecimal rendering of a natural number:
`toHexChars n w` is the `w` lowest hex digits of `n`, most significant
first. -/
def toHexChars : Nat → Nat → List Char
  | _, 0 => []
  | n, w + 1 => toHexChars (n / 16) w ++ [hexDigitChar (n % 16)]

/-- Modelled from the spec: the module `crouton_client.UUID` whose
`UUIDGenerator().create()` the source calls is not part of the sources;
the spec describes its result as "a randomly generated UUID-like
string, globally unique with overwhelming probability".  We model it
as the canonical `8-4-4-4-12` lowercase-hex rendering of a 128-bit
random value `r`, the randomness being the argument of the function. -/
def uuidChars (r : Nat) : List Char :=
  let h := toHexChars r 32
  h.take 8 ++ '-' :: (h.drop 8).take 4 ++ '-' :: (h.drop 12).take 4
    ++ '-' :: (h.drop 16).take 4 ++ '-' :: h.drop 20

/-- Modelled from the spec: `UUIDGenerator().create()` applied to the
128-bit random value `r`. -/
def uuidCreate (r : Nat) : String := String.mk (uuidChars r)

/-- The dict `post` sends: the dict of the caller, with a generated `id`
entry added when the key `id` is absent, as the first two lines of the
method body do. -/
def postBody (dataObj : List (String × Json)) (r : Nat) : List (String × Json) :=
  if hasKey "id" dataObj then dataObj
  else dataObj ++ [("id", Json.str (uuidCreate r))]

/-- Embeds `AsyncCroutonClient.post`: inject an id into the given dict if
absent (in place), build the URL with no item id and no filters, issue
POST with the dict as JSON body.  Returns the result, the dict of the
caller after the call, and the client after the call. -/
def AsyncCroutonClient.post (c : AsyncCroutonClient) (resource : String)
    (dataObj : List (String × Json)) (r : Nat) (parse : String → Option Json)
    (backend : String → List (String × Json) → HttpResponse) :
    Except ClientError Json × List (String × Json) × AsyncCroutonClient :=
  let dataObj := postBody dataObj r
  let url := buildUrl c resource none none
  (handleResponse "POST" parse (backend url dataObj), dataObj, c)

/-- Embeds `AsyncCroutonClient.put`: URL with optional item id, no filters;
PUT with JSON body.  Returns the result and the client after the call. -/
def AsyncCroutonClient.put (c : AsyncCroutonClient) (resource : String)
    (dataObj : List (String × Json)) (itemId : Option String)
    (parse : String → Option Json)
    (backend : String → List (String × Json) → HttpResponse) :
    Except ClientError Json × AsyncCroutonClient :=
  let url := buildUrl c resource itemId none
  (handleResponse "PUT" parse (backend url dataObj), c)

/-- Embeds `AsyncCroutonClient.delete`: URL with optional item id, no filters,
no body; DELETE.  Returns the result and the client after the call. -/
def AsyncCroutonClient.delete (c : AsyncCroutonClient) (resource : String)
    (itemId : Option String) (parse : String → Option Json)
    (backend : String → HttpResponse) :
    Except ClientError Json × AsyncCroutonClient :=
  let url := buildUrl c resource itemId none
  (handleResponse "DELETE" parse (backend url), c)

/-- Substring containment: `s` contains `sub`. -/
def containsStr (s sub : String) : Prop :=
  ∃ p q : String, s = p ++ sub ++ q

/-- Whether a character is a lowercase hexadecimal digit. -/
def isHexChar (c : Char) : Bool := hexLowerChars.contains c

/-- A syntactically valid (lowercase) UUID string: five groups of hex
digits of lengths 8, 4, 4, 4 and 12 joined by dashes. -/
def IsValidUUID (s : String) : Prop :=
  ∃ a b c d e : List Char,
    a.length = 8 ∧ b.length = 4 ∧ c.length = 4 ∧ d.length = 4 ∧ e.length = 12 ∧
    ((a ++ b ++ c ++ d ++ e).all isHexChar = true) ∧
    s = String.mk (a ++ '-' :: b ++ '-' :: c ++ '-' :: d ++ '-' :: e)

/-- The value of a lowercase hexadecimal digit character. -/
def hexVal (c : Char) : Nat := hexLowerChars.indexOf c

/-- The number a big-endian list of hexadecimal digit characters denotes. -/
def fromHexChars (l : List Char) : Nat :=
  l.foldl (fun acc c => acc * 16 + hexVal c) 0

/-- Read the 128-bit value back out of a UUID string by dropping the
dashes and interpreting the hex digits. -/
def decodeUUID (s : String) : Nat :=
  fromHexChars (s.data.filter (fun c => !(c == '-')))

/-! ### Helper lemmas -/

theorem strExt_refl (p : String) : ∃ t, p = p ++ t :=
  ⟨"", (String.append_empty p).symm⟩

theorem strExt_trans {p s s' : String} (h1 : ∃ t, s = p ++ t)
    (h2 : ∃ t, s' = s ++ t) : ∃ t, s' = p ++ t := by
  obtain ⟨a, ha⟩ := h1
  obtain ⟨b, hb⟩ := h2
  exact ⟨a ++ b, by rw [hb, ha, String.append_assoc]⟩

theorem strExt_ite_then2 (u : String) (c : Bool) (x y : String) :
    ∃ t, (if c then u ++ x ++ y else u) = u ++ t := by
  cases c
  · exact ⟨"", (String.append_empty u).symm⟩
  · exact ⟨x ++ y, by simp [String.append_assoc]⟩

theorem strExt_ite_then3 (u : String) (c : Bool) (x y z : String) :
    ∃ t, (if c then u ++ x ++ y ++ z else u) = u ++ t := by
  cases c
  · exact ⟨"", (String.append_empty u).symm⟩
  · exact ⟨x ++ y ++ z, by simp [String.append_assoc]⟩

theorem strExt_ite_else2 (u : String) (c : Bool) (x y : String) :
    ∃ t, (if c then u else u ++ x ++ y) = u ++ t := by
  cases c
  · exact ⟨x ++ y, by simp [String.append_assoc]⟩
  · exact ⟨"", (String.append_empty u).symm⟩

/-- Every URL `_build_url` produces extends the base path
`API_ROOT ++ "/" ++ resource.strip('/')`. -/
theorem buildUrl_extends_base (c : AsyncCroutonClient) (resource : String)
    (itemId : Option String) (queryParams : Option (List (String × String))) :
    ∃ rest, buildUrl c resource itemId queryParams
      = (c.API_ROOT ++ "/" ++ pyStrip resource '/') ++ rest := by
  unfold buildUrl
  exact strExt_trans
    (strExt_trans
      (strExt_trans (strExt_refl _) (strExt_ite_then2 _ _ _ _))
      (strExt_ite_else2 _ _ _ _))
    (strExt_ite_then3 _ _ _ _ _)

theorem length_toHexChars (n w : Nat) : (toHexChars n w).length = w := by
  induction w generalizing n with
  | zero => rfl
  | succ w ih => simp [toHexChars, ih]

theorem isHexChar_hexDigitChar (m : Nat) (h : m < 16) :
    isHexChar (hexDigitChar m) = true := by
  interval_cases m <;> rfl

theorem hexVal_hexDigitChar (m : Nat) (h : m < 16) :
    hexVal (hexDigitChar m) = m := by
  interval_cases m <;> rfl

theorem all_isHexChar_toHexChars (n w : Nat) :
    (toHexChars n w).all isHexChar = true := by
  induction w generalizing n with
  | zero => rfl
  | succ w ih =>
    simp only [toHexChars, List.all_append, ih, Bool.true_and, List.all_cons,
      List.all_nil, Bool.and_true]
    exact isHexChar_hexDigitChar _ (Nat.mod_lt _ (by norm_num))

theorem fromHexChars_toHexChars (n w : Nat) :
    fromHexChars (toHexChars n w) = n % 16 ^ w := by
  induction w generalizing n with
  | zero => simp [toHexChars, fromHexChars, Nat.mod_one]
  | succ w ih =>
    have h1 : fromHexChars (toHexChars n (w + 1))
        = fromHexChars (toHexChars (n / 16) w) * 16 + hexVal (hexDigitChar (n % 16)) := by
      simp [toHexChars, fromHexChars, List.foldl_append]
    rw [h1, ih, hexVal_hexDigitChar _ (Nat.mod_lt _ (by norm_num))]
    have h2 : (16 : Nat) ^ (w + 1) = 16 * 16 ^ w := by
      rw [pow_succ]; ring
    rw [h2, Nat.mod_mul]
    ring

theorem uuid_segments (l : List Char) :
    l.take 8 ++ (l.drop 8).take 4 ++ (l.drop 12).take 4 ++ (l.drop 16).take 4
      ++ l.drop 20 = l := by
  simp only [List.append_assoc]
  rw [show l.drop 20 = (l.drop 16).drop 4 from by rw [List.drop_drop],
    List.take_append_drop]
  rw [show l.drop 16 = (l.drop 12).drop 4 from by rw [List.drop_drop],
    List.take_append_drop]
  rw [show l.drop 12 = (l.drop 8).drop 4 from by rw [List.drop_drop],
    List.take_append_drop]
  exact List.take_append_drop 8 l

theorem isHexChar_ne_dash {c : Char} (h : isHexChar c = true) :
    (c == '-') = false := by
  cases hb : c == '-' with
  | false => rfl
  | true =>
    have hc : c = '-' := eq_of_beq hb
    subst hc
    exact absurd h (by decide)

theorem filter_noDash_of_allHex {l : List Char}
    (h : ∀ c ∈ l, isHexChar c = true) :
    l.filter (fun c => !(c == '-')) = l := by
  rw [List.filter_eq_self]
  intro a ha
  simp [isHexChar_ne_dash (h a ha)]

theorem filter_uuidChars (r : Nat) :
    (uuidChars r).filter (fun c => !(c == '-')) = toHexChars r 32 := by
  have hall : ∀ c ∈ toHexChars r 32, isHexChar c = true :=
    List.all_eq_true.mp (all_isHexChar_toHexChars r 32)
  have htake : ∀ n, ((toHexChars r 32).take n).filter (fun c => !(c == '-'))
      = (toHexChars r 32).take n :=
    fun n => filter_noDash_of_allHex (fun c hc => hall c (List.mem_of_mem_take hc))
  have hdroptake : ∀ n m,
      (((toHexChars r 32).drop n).take m).filter (fun c => !(c == '-'))
        = ((toHexChars r 32).drop n).take m :=
    fun n m => filter_noDash_of_allHex
      (fun c hc => hall c (List.mem_of_mem_drop (List.mem_of_mem_take hc)))
  have hdrop : ∀ n, ((toHexChars r 32).drop n).filter (fun c => !(c == '-'))
      = (toHexChars r 32).drop n :=
    fun n => filter_noDash_of_allHex (fun c hc => hall c (List.mem_of_mem_drop hc))
  have hseg := uuid_segments (toHexChars r 32)
  unfold uuidChars
  simp only [List.filter_append, List.filter_cons, htake, hdroptake, hdrop,
    show (('-' == '-') : Bool) = true from rfl, Bool.not_true, if_neg Bool.false_ne_true]
  simp only [List.append_assoc] at hseg ⊢
  simpa using hseg

theorem decodeUUID_uuidCreate (r : Nat) : decodeUUID (uuidCreate r) = r % 16 ^ 32 := by
  show fromHexChars ((uuidChars r).filter (fun c => !(c == '-'))) = r % 16 ^ 32
  rw [filter_uuidChars, fromHexChars_toHexChars]

theorem uuidCreate_inj (r1 r2 : Nat) (h1 : r1 < 2 ^ 128) (h2 : r2 < 2 ^ 128)
    (heq : uuidCreate r1 = uuidCreate r2) : r1 = r2 := by
  have e := congrArg decodeUUID heq
  rw [decodeUUID_uuidCreate, decodeUUID_uuidCreate,
    show (16 : Nat) ^ 32 = 2 ^ 128 from by norm_num,
    Nat.mod_eq_of_lt h1, Nat.mod_eq_of_lt h2] at e
  exact e

theorem isValidUUID_uuidCreate (r : Nat) : IsValidUUID (uuidCreate r) := by
  have hlen : (toHexChars r 32).length = 32 := length_toHexChars r 32
  refine ⟨(toHexChars r 32).take 8, ((toHexChars r 32).drop 8).take 4,
    ((toHexChars r 32).drop 12).take 4, ((toHexChars r 32).drop 16).take 4,
    (toHexChars r 32).drop 20, ?_, ?_, ?_, ?_, ?_, ?_, rfl⟩
  · simp [List.length_take, hlen]
  · simp [List.length_take, List.length_drop, hlen]
  · simp [List.length_take, List.length_drop, hlen]
  · simp [List.length_take, List.length_drop, hlen]
  · simp [List.length_drop, hlen]
  · rw [uuid_segments]
    exact all_isHexChar_toHexChars r 32

theorem lookupKey_append_id {d : List (String × Json)}
    (hd : hasKey "id" d = false) (v : Json) :
    lookupKey "id" (d ++ [("id", v)]) = some v := by
  unfold lookupKey
  rw [List.find?_append]
  have hnone : d.find? (fun p => p.1 == "id") = none := by
    rw [List.find?_eq_none]
    intro x hx
    simp only [hasKey, List.any_eq_false] at hd
    exact hd x hx
  rw [hnone]
  simp [List.find?]

theorem lookupKey_append_other {d : List (String × Json)} (k : String)
    (hk : k ≠ "id") (v : Json) :
    lookupKey k (d ++ [("id", v)]) = lookupKey k d := by
  unfold lookupKey
  rw [List.find?_append]
  cases hf : d.find? (fun p => p.1 == k) with
  | some x => simp
  | none =>
    have : (("id" : String) == k) = false := by
      simp [hk.symm]
    simp [List.find?, this]

/-! ### Claim theorems -/

/-- C1: for every operation (get, post, put, delete), a response with a
status other than 200 makes the operation fail with an error carrying
the HTTP method, the status code and the raw response body text; the
error message contains the status code and the body, so a 404 with
body "not found" makes `get` fail with a message including `404` and
`"not found"`. -/
theorem c1_requestFailed (c : AsyncCroutonClient) (resource : String)
    (itemId filterKey filterValue : Option String) (dataObj : List (String × Json))
    (r : Nat) (parse : String → Option Json) (st : Nat) (bd : String)
    (hst : st ≠ 200) :
    (c.get resource itemId filterKey filterValue parse (fun _ => ⟨st, bd⟩)).1
        = Except.error (ClientError.requestFailed "GET" st bd)
  ∧ (c.post resource dataObj r parse (fun _ _ => ⟨st, bd⟩)).1
        = Except.error (ClientError.requestFailed "POST" st bd)
  ∧ (c.put resource dataObj itemId parse (fun _ _ => ⟨st, bd⟩)).1
        = Except.error (ClientError.requestFailed "PUT" st bd)
  ∧ (c.delete resource itemId parse (fun _ => ⟨st, bd⟩)).1
        = Except.error (ClientError.requestFailed "DELETE" st bd)
  ∧ (∀ method,
      containsStr (errMessage (ClientError.requestFailed method st bd)) (toString st)
    ∧ containsStr (errMessage (ClientError.requestFailed method st bd)) bd) := by
  refine ⟨?_, ?_, ?_, ?_, ?_⟩
  · simp [AsyncCroutonClient.get, handleResponse, hst]
  · simp [AsyncCroutonClient.post, handleResponse, hst]
  · simp [AsyncCroutonClient.put, handleResponse, hst]
  · simp [AsyncCroutonClient.delete, handleResponse, hst]
  · intro method
    constructor
    · exact ⟨method ++ " request failed with status ", ": " ++ bd,
        by simp [errMessage, String.append_assoc]⟩
    · exact ⟨method ++ " request failed with status " ++ toString st ++ ": ", "",
        by simp [errMessage, String.append_assoc, String.append_empty]⟩

/-- C1 witness: a mocked backend answering 404 with body "not found"
makes `get` fail with `RequestFailed GET 404 "not found"`, whose
message contains `404` and `not found`. -/
theorem c1_requestFailed_witness :
    (AsyncCroutonClient.get (initClient "http://x" none) "r" none none none
        (fun _ => none) (fun _ => ⟨404, "not found"⟩)).1
      = Except.error (ClientError.requestFailed "GET" 404 "not found")
  ∧ containsStr (errMessage (ClientError.requestFailed "GET" 404 "not found")) "404"
  ∧ containsStr (errMessage (ClientError.requestFailed "GET" 404 "not found")) "not found" := by
  have h := c1_requestFailed (initClient "http://x" none) "r" none none none [] 0
    (fun _ => none) 404 "not found" (by decide)
  refine ⟨h.1, ?_, (h.2.2.2.2 "GET").2⟩
  have h404 := (h.2.2.2.2 "GET").1
  have ht : toString (404 : Nat) = "404" := rfl
  rwa [ht] at h404

/-- C2: for every operation, the result is a success with value `j`
exactly when the response status is 200 and the body parses to `j`;
the parsed body is returned unchanged, so a 200 body parsing to the
mapping containing `a ↦ 1` is returned as exactly that mapping. -/
theorem c2_success_iff :
    (∀ (c : AsyncCroutonClient) (resource : String)
        (itemId filterKey filterValue : Option String)
        (parse : String → Option Json) (st : Nat) (bd : String) (j : Json),
      (c.get resource itemId filterKey filterValue parse (fun _ => ⟨st, bd⟩)).1
          = Except.ok j
        ↔ st = 200 ∧ parse bd = some j)
  ∧ (∀ (c : AsyncCroutonClient) (resource : String)
        (dataObj : List (String × Json)) (r : Nat)
        (parse : String → Option Json) (st : Nat) (bd : String) (j : Json),
      (c.post resource dataObj r parse (fun _ _ => ⟨st, bd⟩)).1 = Except.ok j
        ↔ st = 200 ∧ parse bd = some j)
  ∧ (∀ (c : AsyncCroutonClient) (resource : String)
        (dataObj : List (String × Json)) (itemId : Option String)
        (parse : String → Option Json) (st : Nat) (bd : String) (j : Json),
      (c.put resource dataObj itemId parse (fun _ _ => ⟨st, bd⟩)).1 = Except.ok j
        ↔ st = 200 ∧ parse bd = some j)
  ∧ (∀ (c : AsyncCroutonClient) (resource : String) (itemId : Option String)
        (parse : String → Option Json) (st : Nat) (bd : String) (j : Json),
      (c.delete resource itemId parse (fun _ => ⟨st, bd⟩)).1 = Except.ok j
        ↔ st = 200 ∧ parse bd = some j)
  ∧ (AsyncCroutonClient.get (initClient "http://x" none) "items" none none none
        (fun _ => some (Json.obj [("a", Json.num 1)])) (fun _ => ⟨200, "a json body"⟩)).1
      = Except.ok (Json.obj [("a", Json.num 1)]) := by
  refine ⟨?_, ?_, ?_, ?_, rfl⟩ <;>
  · intro c resource
    intros
    rename_i parse st bd j
    cases hs : decide (st = 200) with
    | true =>
      have hs' : st = 200 := of_decide_eq_true hs
      cases hp : parse bd with
      | none => simp [AsyncCroutonClient.get, AsyncCroutonClient.post,
          AsyncCroutonClient.put, AsyncCroutonClient.delete, handleResponse, hs', hp]
      | some x => simp [AsyncCroutonClient.get, AsyncCroutonClient.post,
          AsyncCroutonClient.put, AsyncCroutonClient.delete, handleResponse, hs', hp,
          eq_comm]
    | false =>
      have hs' : st ≠ 200 := of_decide_eq_false hs
      simp [AsyncCroutonClient.get, AsyncCroutonClient.post,
        AsyncCroutonClient.put, AsyncCroutonClient.delete, handleResponse, hs']

/-- C3: for every apiRoot and every resource, the constructed URL
starts with the base path `apiRoot.rstrip('/') ++ "/" ++
resource.strip('/')`, whatever the item id, filters and token; with
none of those the URL is exactly the base path. -/
theorem c3_base_path :
    (∀ (apiRoot : String) (accessString : Option String) (resource : String)
        (itemId : Option String) (queryParams : Option (List (String × String))),
      ∃ rest, buildUrl (initClient apiRoot accessString) resource itemId queryParams
        = (pyRstrip apiRoot '/' ++ "/" ++ pyStrip resource '/') ++ rest)
  ∧ (∀ apiRoot resource,
      buildUrl (initClient apiRoot none) resource none none
        = pyRstrip apiRoot '/' ++ "/" ++ pyStrip resource '/') := by
  constructor
  · intro apiRoot accessString resource itemId queryParams
    exact buildUrl_extends_base (initClient apiRoot accessString) resource itemId queryParams
  · intro apiRoot resource
    simp [buildUrl, initClient, optTruthy]

/-- C4: with a non-empty access token configured, the built URL is the
token-free URL followed by `token=<token stripped of "?">`, joined
with `&` when a `?` is already present and with `?` otherwise; in
particular the URL ends with the token parameter. -/
theorem c4_token (root tok resource : String) (itemId : Option String)
    (queryParams : Option (List (String × String))) (htok : tok ≠ "") :
    buildUrl (initClient root (some tok)) resource itemId queryParams
      = buildUrl (initClient root none) resource itemId queryParams
        ++ (if strContainsChar (buildUrl (initClient root none) resource itemId queryParams) '?'
            then "&" else "?")
        ++ "token=" ++ pyStrip tok '?'
  ∧ ∃ p, buildUrl (initClient root (some tok)) resource itemId queryParams
        = p ++ ("token=" ++ pyStrip tok '?') := by
  have h : buildUrl (initClient root (some tok)) resource itemId queryParams
      = buildUrl (initClient root none) resource itemId queryParams
        ++ (if strContainsChar (buildUrl (initClient root none) resource itemId queryParams) '?'
            then "&" else "?")
        ++ "token=" ++ pyStrip tok '?' := by
    simp [buildUrl, initClient, optTruthy, htok]
  refine ⟨h, ⟨buildUrl (initClient root none) resource itemId queryParams
    ++ (if strContainsChar (buildUrl (initClient root none) resource itemId queryParams) '?'
        then "&" else "?"), ?_⟩⟩
  rw [h]
  exact String.append_assoc _ _ _

/-- C4 witness: an access token `"?abc123"` on root `http://x` and
resource `r` yields the URL `http://x/r?token=abc123`. -/
theorem c4_token_witness :
    buildUrl (initClient "http://x" (some "?abc123")) "r" none none
      = "http://x/r?token=abc123" := by
  rw [(c4_token "http://x" "?abc123" "r" none none (by decide)).1]
  decide

/-- C5: when the posted dict lacks an `id` key, the body sent carries a
generated `id` that is a syntactically valid UUID; distinct 128-bit
random draws give distinct ids (so two calls collide only with
probability 2^-128); when the dict already has an `id`, it is sent
unchanged. -/
theorem c5_post_id (dataObj : List (String × Json)) (r : Nat)
    (hid : hasKey "id" dataObj = false) :
    postBody dataObj r = dataObj ++ [("id", Json.str (uuidCreate r))]
  ∧ lookupKey "id" (postBody dataObj r) = some (Json.str (uuidCreate r))
  ∧ IsValidUUID (uuidCreate r)
  ∧ (∀ r1 r2, r1 < 2 ^ 128 → r2 < 2 ^ 128 →
      uuidCreate r1 = uuidCreate r2 → r1 = r2)
  ∧ (∀ d, hasKey "id" d = true → postBody d r = d)
  ∧ (∀ (c : AsyncCroutonClient) (resource : String) (parse : String → Option Json)
        (backend : String → List (String × Json) → HttpResponse),
      (c.post resource dataObj r parse backend).2.1 = postBody dataObj r) := by
  have hb : postBody dataObj r = dataObj ++ [("id", Json.str (uuidCreate r))] := by
    simp [postBody, hid]
  refine ⟨hb, ?_, isValidUUID_uuidCreate r, uuidCreate_inj, ?_, fun _ _ _ _ => rfl⟩
  · rw [hb]
    exact lookupKey_append_id hid _
  · intro d h
    simp [postBody, h]

/-- C5 witness: posting a dict with the single key `name` and random
value 0 sends the
dict extended with a generated valid UUID id. -/
theorem c5_post_id_witness :
    hasKey "id" [("name", Json.str "x")] = false
  ∧ postBody [("name", Json.str "x")] 0
      = [("name", Json.str "x"), ("id", Json.str (uuidCreate 0))]
  ∧ IsValidUUID (uuidCreate 0) := by
  have h := c5_post_id [("name", Json.str "x")] 0 (by decide)
  exact ⟨by decide, by rw [h.1]; rfl, h.2.2.1⟩

/-- C6: a `get` URL carries at most one filter pair, and with
`filter_key = "status"`, `filter_value = "open"` and no access token
the query string is exactly `status=open`. -/
theorem c6_single_filter :
    (∀ filterKey filterValue,
      ((getQueryParams filterKey filterValue).getD []).length ≤ 1)
  ∧ (∀ (c : AsyncCroutonClient) (resource : String)
        (itemId filterKey filterValue : Option String)
        (parse : String → Option Json) (backend : String → HttpResponse),
      (c.get resource itemId filterKey filterValue parse backend).1
        = handleResponse "GET" parse
            (backend (buildUrl c resource itemId (getQueryParams filterKey filterValue))))
  ∧ (∀ root resource (itemId : Option String),
      buildUrl (initClient root none) resource itemId
          (getQueryParams (some "status") (some "open"))
        = buildUrl (initClient root none) resource itemId none ++ "?" ++ "status=open") := by
  refine ⟨?_, fun _ _ _ _ _ _ _ => rfl, ?_⟩
  · intro fk fv
    unfold getQueryParams
    split <;> simp
  · intro root resource itemId
    have hqs : urlencode [("status", "open")] = "status=open" := by decide
    simp [buildUrl, initClient, getQueryParams, optTruthy, hqs]

/-- C7: a `put` with a non-empty item id and no token yields the URL
`<base>/<itemId>` with nothing appended after the id, and `put` and
`delete` pass no filter parameters at all to the URL builder. -/
theorem c7_put_item_url (root resource i : String) (hi : i ≠ "") :
    buildUrl (initClient root none) resource (some i) none
      = pyRstrip root '/' ++ "/" ++ pyStrip resource '/' ++ "/" ++ i
  ∧ (∀ (c : AsyncCroutonClient) (res : String) (dataObj : List (String × Json))
        (itemId : Option String) (parse : String → Option Json)
        (backend : String → List (String × Json) → HttpResponse),
      (c.put res dataObj itemId parse backend).1
        = handleResponse "PUT" parse (backend (buildUrl c res itemId none) dataObj))
  ∧ (∀ (c : AsyncCroutonClient) (res : String) (itemId : Option String)
        (parse : String → Option Json) (backend : String → HttpResponse),
      (c.delete res itemId parse backend).1
        = handleResponse "DELETE" parse (backend (buildUrl c res itemId none))) := by
  refine ⟨?_, fun _ _ _ _ _ _ => rfl, fun _ _ _ _ _ => rfl⟩
  simp [buildUrl, initClient, optTruthy, hi]

/-- C7 witness: `put` on resource `users` with item id `42` and no
token yields `http://x/users/42`, which contains no `?`. -/
theorem c7_put_item_url_witness :
    buildUrl (initClient "http://x" none) "users" (some "42") none = "http://x/users/42"
  ∧ strContainsChar (buildUrl (initClient "http://x" none) "users" (some "42") none) '?' = false := by
  have h := (c7_put_item_url "http://x" "users" "42" (by decide)).1
  exact ⟨by rw [h]; decide, by rw [h]; decide⟩

/-- C8: after construction the stored configuration is the apiRoot with
trailing slashes stripped together with the access token as given, and
every operation returns the client unchanged: the client holds no
mutable state across calls. -/
theorem c8_config_immutable :
    (∀ (apiRoot : String) (accessString : Option String),
        (initClient apiRoot accessString).API_ROOT = pyRstrip apiRoot '/'
      ∧ (initClient apiRoot accessString).ACCESS_STRING = accessString)
  ∧ (∀ (c : AsyncCroutonClient) (resource : String)
        (itemId filterKey filterValue : Option String)
        (parse : String → Option Json) (backend : String → HttpResponse),
      (c.get resource itemId filterKey filterValue parse backend).2 = c)
  ∧ (∀ (c : AsyncCroutonClient) (resource : String)
        (dataObj : List (String × Json)) (r : Nat)
        (parse : String → Option Json)
        (backend : String → List (String × Json) → HttpResponse),
      (c.post resource dataObj r parse backend).2.2 = c)
  ∧ (∀ (c : AsyncCroutonClient) (resource : String)
        (dataObj : List (String × Json)) (itemId : Option String)
        (parse : String → Option Json)
        (backend : String → List (String × Json) → HttpResponse),
      (c.put resource dataObj itemId parse backend).2 = c)
  ∧ (∀ (c : AsyncCroutonClient) (resource : String) (itemId : Option String)
        (parse : String → Option Json) (backend : String → HttpResponse),
      (c.delete resource itemId parse backend).2 = c) :=
  ⟨fun _ _ => ⟨rfl, rfl⟩, fun _ _ _ _ _ _ _ => rfl, fun _ _ _ _ _ _ => rfl,
    fun _ _ _ _ _ _ => rfl, fun _ _ _ _ _ => rfl⟩

/-- C9: when the filter key or the filter value is `None` or the empty
string, `get` includes no filter pair at all: the query dict is `None`
and the call behaves exactly like a call without filters. -/
theorem c9_filter_dropped (c : AsyncCroutonClient) (resource : String)
    (itemId filterKey filterValue : Option String)
    (parse : String → Option Json) (backend : String → HttpResponse)
    (h : filterKey = none ∨ filterKey = some "" ∨ filterValue = none ∨ filterValue = some "") :
    getQueryParams filterKey filterValue = none
  ∧ c.get resource itemId filterKey filterValue parse backend
      = c.get resource itemId none none parse backend := by
  have hq : getQueryParams filterKey filterValue = none := by
    rcases h with h | h | h | h <;> subst h <;> simp [getQueryParams, optTruthy]
  refine ⟨hq, ?_⟩
  simp only [AsyncCroutonClient.get, hq]
  rfl

/-- C9 witness: `filter_key = "status"` with an empty filter value is
silently dropped. -/
theorem c9_filter_dropped_witness :
    getQueryParams (some "status") (some "") = none
  ∧ AsyncCroutonClient.get (initClient "http://x" none) "r" none (some "status") (some "")
        (fun _ => some Json.null) (fun u => ⟨200, u⟩)
      = AsyncCroutonClient.get (initClient "http://x" none) "r" none none none
        (fun _ => some Json.null) (fun u => ⟨200, u⟩) :=
  c9_filter_dropped (initClient "http://x" none) "r" none (some "status") (some "")
    (fun _ => some Json.null) (fun u => ⟨200, u⟩)
    (Or.inr (Or.inr (Or.inr rfl)))

/-- C10: `post` on a dict lacking `id` updates the dict of the caller in
place: after the call the dict is the original one extended with the
generated `id` entry, every other key reads unchanged, and the final
dict does not depend on the response (the same whether the request
succeeded or raised). -/
theorem c10_post_mutates (c : AsyncCroutonClient) (resource : String)
    (dataObj : List (String × Json)) (r : Nat) (parse : String → Option Json)
    (backend : String → List (String × Json) → HttpResponse)
    (hid : hasKey "id" dataObj = false) :
    (c.post resource dataObj r parse backend).2.1
        = dataObj ++ [("id", Json.str (uuidCreate r))]
  ∧ lookupKey "id" (c.post resource dataObj r parse backend).2.1
        = some (Json.str (uuidCreate r))
  ∧ (∀ k, k ≠ "id" →
      lookupKey k (c.post resource dataObj r parse backend).2.1
        = lookupKey k dataObj)
  ∧ (∀ backend' : String → List (String × Json) → HttpResponse,
      (c.post resource dataObj r parse backend').2.1
        = (c.post resource dataObj r parse backend).2.1) := by
  have hb : (c.post resource dataObj r parse backend).2.1
      = dataObj ++ [("id", Json.str (uuidCreate r))] := by
    simp [AsyncCroutonClient.post, postBody, hid]
  refine ⟨hb, ?_, ?_, fun _ => rfl⟩
  · rw [hb]
    exact lookupKey_append_id hid _
  · intro k hk
    rw [hb]
    exact lookupKey_append_other k hk _

/-- C10 witness: posting a dict with the single key `name` against a
backend that answers
500 still leaves the dict of the caller extended with the generated id and
the `name` entry unchanged. -/
theorem c10_post_mutates_witness :
    (AsyncCroutonClient.post (initClient "http://x" none) "r" [("name", Json.str "x")] 0
        (fun _ => none) (fun _ _ => ⟨500, "boom"⟩)).2.1
      = [("name", Json.str "x"), ("id", Json.str (uuidCreate 0))]
  ∧ lookupKey "name"
      (AsyncCroutonClient.post (initClient "http://x" none) "r" [("name", Json.str "x")] 0
        (fun _ => none) (fun _ _ => ⟨500, "boom"⟩)).2.1
      = some (Json.str "x") := by
  have h := c10_post_mutates (initClient "http://x" none) "r" [("name", Json.str "x")] 0
    (fun _ => none) (fun _ _ => ⟨500, "boom"⟩) (by decide)
  refine ⟨by rw [h.1]; rfl, ?_⟩
  rw [h.2.2.1 "name" (by decide)]
  rfl

end Crouton
